import Mathlib

/-!
Shallow embedding of `src/static/script.js`, the browser client controller of
the healthcare FastAPI app: session lifecycle (restore at `DOMContentLoaded`,
`handleLogin`, `logout`), chat (`sendMessage`, `addMessage`, `loadChatHistory`,
`clearChatHistory`), uploads (`handleFileUpload`), and registration validation
(`handleRegister`).

Host primitives are modelled as follows.
* `localStorage` is a record with one field per key the script uses
  (`authToken`, `currentUser`); `getItem` of a missing key is `none`.
* JS strings that the script only ever feeds to `JSON.parse` are modelled by
  `JSText`: a string is classified by what `JSON.parse` does to it — either it
  parses to a structured `Json` value (`JSText.jsonOf v`, which is also the
  class of `JSON.stringify v`, since `JSON.parse (JSON.stringify v) = v`), or
  `JSON.parse` throws on it (`JSText.notJson s`, keeping the raw text so that
  JS truthiness of the string is still observable).  `JSON.stringify` of any
  value is a non-empty string, so `jsonOf` is always truthy.
* `fetch` results are modelled as an inductive of the cases the script
  distinguishes: 2xx with payload, non-2xx with a `detail` string, or a
  transport error (rejected promise, caught by `catch`).
* The DOM message container `#chat-messages` is modelled as the list of
  messages `addMessage` has appended; `addMessage` renders a sources block
  only when `sources && sources.length > 0`, so a `null` sources argument and
  an empty array are observationally equal and both are modelled as `[]`.
-/

/-- Structured data as produced by `JSON.parse`.  JS numbers only occur in
fields the controller never computes with, so they are modelled as `Int`. -/
inductive Json where
  | str (s : String)
  | num (n : Int)
  | bool (b : Bool)
  | null
  | arr (elems : List Json)
  | obj (fields : List (String × Json))

/-- A JS string classified by the behaviour of `JSON.parse` on it:
`jsonOf v` is a string parsing to `v` (in particular `JSON.stringify v`);
`notJson s` is a raw string on which `JSON.parse` throws. -/
inductive JSText where
  | jsonOf (v : Json)
  | notJson (s : String)

/-- JS truthiness of the underlying string.  A serialization of any JSON
value is non-empty, hence truthy; a raw string is truthy iff non-empty. -/
def JSText.truthy : JSText → Bool
  | .jsonOf _ => true
  | .notJson s => s != ""

/-- Model of `JSON.parse`, returning `none` where the real call throws. -/
def JSText.parse : JSText → Option Json
  | .jsonOf v => some v
  | .notJson _ => none

/-- The two `localStorage` keys the script uses: `authToken` holds a plain
string, `currentUser` holds a string fed to `JSON.parse` on restore. -/
structure Storage where
  authToken : Option String
  currentUser : Option JSText

/-- JS truthiness of `localStorage.getItem`: `null` and `""` are falsy. -/
def truthyOptStr : Option String → Bool
  | none => false
  | some s => s != ""

/-- JS truthiness of the stored `currentUser` entry. -/
def truthyOptJS : Option JSText → Bool
  | none => false
  | some t => t.truthy

/-- The in-memory globals `authToken` / `currentUser` (both `null` at load). -/
structure SessionGlobals where
  authToken : Option String
  currentUser : Option Json

/-- Result of running the `DOMContentLoaded` session-restore block:
the globals after the block, whether an exception escaped it, and whether the
logged-in branch (`showMainApp(); loadChatHistory(); loadDocuments()`) ran. -/
structure RestoreOutcome where
  globals : SessionGlobals
  threw : Bool
  restored : Bool

/-- The session-restore logic of the `DOMContentLoaded` handler
(`script.js` lines 8–17):
```
const savedToken = localStorage.getItem('authToken');
const savedUser = localStorage.getItem('currentUser');
if (savedToken && savedUser) {
    authToken = savedToken;
    currentUser = JSON.parse(savedUser);   // unguarded: may throw
    showMainApp(); loadChatHistory(); loadDocuments();
}
```
Note the assignment order: when `JSON.parse` throws, `authToken` has already
been set and `currentUser` is still `null`. -/
def domContentLoaded (store : Storage) : RestoreOutcome :=
  match store.authToken, store.currentUser with
  | some tok, some txt =>
      if tok != "" && txt.truthy then
        match txt.parse with
        | some u => { globals := ⟨some tok, some u⟩, threw := false, restored := true }
        | none => { globals := ⟨some tok, none⟩, threw := true, restored := false }
      else
        { globals := ⟨none, none⟩, threw := false, restored := false }
  | _, _ => { globals := ⟨none, none⟩, threw := false, restored := false }

/-- A retrieved-source citation attached to an assistant answer.  The
controller never computes with `similarity` (it only formats it), so the JS
number is modelled as a rational. -/
structure Source where
  filename : String
  similarity : ℚ
  content_preview : String
deriving DecidableEq

/-- The first argument of `addMessage`. -/
inductive Role where
  | user
  | assistant
  | system
deriving DecidableEq

/-- One entry of the `#chat-messages` container, as appended by `addMessage`.
`sources = []` covers both a `null` argument and an empty array (observationally
equal: the sources block renders only when non-empty). -/
structure Msg where
  role : Role
  content : String
  sources : List Source
deriving DecidableEq

/-- The chat-related DOM state `sendMessage` reads and writes: the text of
`#chat-input`, the `disabled` flag of `#send-btn`, and the message list. -/
structure ChatUI where
  input : String
  sendDisabled : Bool
  messages : List Msg
deriving DecidableEq

/-- Whole-app state for the session-lifecycle operations: the two globals,
durable storage, and the chat surface. -/
structure AppState where
  authToken : Option String
  currentUser : Option Json
  storage : Storage
  chat : ChatUI

/-- The success branch of `handleLogin` (`script.js` lines 66–76): set both
globals from the response, then `localStorage.setItem` both keys —
`authToken` verbatim and `currentUser` as `JSON.stringify(currentUser)`. -/
def loginSuccess (tok : String) (userInfo : Json) (s : AppState) : AppState :=
  { authToken := some tok
    currentUser := some userInfo
    storage := { authToken := some tok, currentUser := some (JSText.jsonOf userInfo) }
    chat := s.chat }

/-- The `logout` function (`script.js` lines 138–154): null both globals, remove both
storage keys, and clear the `#chat-messages` container.  It does not touch
the `#send-btn` disabled flag. -/
def logout (s : AppState) : AppState :=
  { authToken := none
    currentUser := none
    storage := { authToken := none, currentUser := none }
    chat := { input := s.chat.input, sendDisabled := s.chat.sendDisabled, messages := [] } }

/-- The durable-storage write performed by a successful login: both keys set,
the identity as its JSON serialization. -/
def saveSession (tok : String) (userInfo : Json) : Storage :=
  { authToken := some tok, currentUser := some (JSText.jsonOf userInfo) }

/-- Both storage entries present and truthy (the `savedToken && savedUser`
guard of the restore block). -/
def sessionEntriesPresent (store : Storage) : Bool :=
  truthyOptStr store.authToken && truthyOptJS store.currentUser

/-- The stored identity entry parses as valid structured data. -/
def storedIdentityParses (store : Storage) : Bool :=
  match store.currentUser with
  | some t => t.parse.isSome
  | none => false

/-- The session invariant on a credential/identity pair: set together or
absent together. -/
def memInvariant (tok : Option String) (u : Option Json) : Bool :=
  tok.isSome == u.isSome

/-- The session invariant on durable storage: both keys present or both
absent. -/
def storeInvariant (store : Storage) : Bool :=
  store.authToken.isSome == store.currentUser.isSome

/-- Outcome of the `/chat/ask` fetch, as `sendMessage` distinguishes it:
2xx with `{answer, sources}`, non-2xx with `{detail}`, or a transport error
caught by the `catch` block. -/
inductive AskResponse where
  | ok (answer : String) (sources : List Source)
  | badStatus (detail : String)
  | network

/-- What `sendMessage` has done by its first suspension point (`await fetch`):
either it returned early (no request issued, nothing changed), or it issued
the request with the given question after mutating the UI. -/
inductive SendPhase1Result where
  | noSend (ui : ChatUI)
  | issued (ui : ChatUI) (question : String)
deriving DecidableEq

/-- JS `String.prototype.trim`: drop leading and trailing whitespace. -/
def jsTrim (s : String) : String :=
  ⟨((s.data.dropWhile Char.isWhitespace).reverse.dropWhile Char.isWhitespace).reverse⟩

/-- The synchronous prefix of `sendMessage` (`script.js` lines 239–247):
trim `#chat-input`; if empty, return (no request); otherwise clear the input,
disable `#send-btn`, append the `user` message, and issue `/chat/ask`. -/
def sendMessagePhase1 (ui : ChatUI) : SendPhase1Result :=
  let message := jsTrim ui.input
  if message = "" then
    .noSend ui
  else
    .issued
      { input := ""
        sendDisabled := true
        messages := ui.messages ++ [{ role := .user, content := message, sources := [] }] }
      message

/-- The continuation of `sendMessage` after the response settles
(`script.js` lines 262–273): append the `assistant` message for the ok /
non-2xx / transport case, then the `finally` block re-enables `#send-btn`.
It reads only the current DOM state — nothing is compared against the session
that issued the request. -/
def sendMessageApply (resp : AskResponse) (ui : ChatUI) : ChatUI :=
  let afterAppend : ChatUI :=
    match resp with
    | .ok answer sources =>
        { ui with messages := ui.messages ++ [{ role := .assistant, content := answer, sources := sources }] }
    | .badStatus detail =>
        { ui with messages := ui.messages ++ [{ role := .assistant, content := "Error: " ++ detail, sources := [] }] }
    | .network =>
        { ui with messages := ui.messages ++ [{ role := .assistant, content := "Sorry, there was a connection error. Please try again.", sources := [] }] }
  { afterAppend with sendDisabled := false }

/-- The assistant message `sendMessageApply` appends for a given response. -/
def assistantMsgFor : AskResponse → Msg
  | .ok answer sources => { role := .assistant, content := answer, sources := sources }
  | .badStatus detail => { role := .assistant, content := "Error: " ++ detail, sources := [] }
  | .network => { role := .assistant, content := "Sorry, there was a connection error. Please try again.", sources := [] }

/-- One item of the `/chat/history` payload. -/
structure HistItem where
  message : String
  response : String
  sources : List Source
deriving DecidableEq

/-- The success branch of `loadChatHistory` (`script.js` lines 312–320) applied
to the current message list:
```
if (result.history && result.history.length > 0) {
    messagesContainer.innerHTML = '';
    result.history.forEach(item => {
        addMessage('user', item.message);
        addMessage('assistant', item.response, item.sources);
    });
}
```
An absent or empty `history` skips the whole block, leaving `msgs` as is. -/
def loadChatHistory (history : List HistItem) (msgs : List Msg) : List Msg :=
  if history.isEmpty then
    msgs
  else
    history.flatMap fun item =>
      [{ role := .user, content := item.message, sources := [] },
       { role := .assistant, content := item.response, sources := item.sources }]

/-- Outcome of the `/chat/clear` fetch as `clearChatHistory` distinguishes it:
2xx, non-2xx (note: the script has no `else` branch for this case), or a
transport error caught by `catch`. -/
inductive ClearResp where
  | ok
  | badStatus
  | network

/-- The `clearChatHistory` function (`script.js` lines 326–344) applied to the message
list: without confirmation, no request is issued and nothing changes; on 2xx
the container is emptied and a `system` confirmation appended; on non-2xx
nothing happens (there is no `else`); on transport error a `system` error
message is appended. -/
def clearChatHistory (confirmed : Bool) (resp : ClearResp) (msgs : List Msg) : List Msg :=
  if !confirmed then
    msgs
  else
    match resp with
    | .ok => [{ role := .system, content := "Chat history cleared successfully!", sources := [] }]
    | .badStatus => msgs
    | .network => msgs ++ [{ role := .system, content := "Error clearing chat history. Please try again.", sources := [] }]

/-- A file of the `<input type=file>` selection: its name and its declared
media type (`File.type`). -/
structure FileRec where
  name : String
  type : String
deriving DecidableEq

/-- What `handleFileUpload` does before any suspension: nothing for an empty
selection; a client-side validation message (`showMessage(..., 'error')`) with
no request when no PDF survives the filter; otherwise a `/documents/upload`
request whose multipart body lists exactly the appended files, in order. -/
inductive UploadOutcome where
  | noop
  | rejected (msg : String)
  | request (body : List FileRec)
deriving DecidableEq

/-- The synchronous prefix of `handleFileUpload` (`script.js` lines 166–181):
```
const files = Array.from(event.target.files);
if (files.length === 0) return;
const formData = new FormData();
files.forEach(file => { if (file.type === 'application/pdf') formData.append('files', file); });
if (!formData.has('files')) { showMessage('Please select PDF files only', 'error'); return; }
```
-/
def handleFileUpload (files : List FileRec) : UploadOutcome :=
  if files.isEmpty then
    .noop
  else
    let pdfs := files.filter fun f => f.type = "application/pdf"
    if pdfs.isEmpty then
      .rejected "Please select PDF files only"
    else
      .request pdfs

/-- What `handleRegister` does before any suspension: a client-side validation
message with no request, or a `/auth/register` request with the four fields. -/
inductive RegisterOutcome where
  | rejected (msg : String)
  | request (username email fullName password : String)
deriving DecidableEq

/-- The validation prefix of `handleRegister` (`script.js` lines 90–103): any
empty field (JS falsy string) rejects with one message, then a password of
fewer than 6 characters rejects with another; otherwise the request is
issued. -/
def handleRegisterValidate (username email fullName password : String) : RegisterOutcome :=
  if username = "" || email = "" || fullName = "" || password = "" then
    .rejected "Please fill in all fields"
  else if password.length < 6 then
    .rejected "Password must be at least 6 characters"
  else
    .request username email fullName password

/-! ### Helper lemmas -/

/-- Case analysis of the session-restore block: either the
`savedToken && savedUser` guard fails and nothing happens, or both entries are
present and truthy and the outcome is decided by `JSON.parse` on the stored
identity. -/
theorem domContentLoaded_cases (store : Storage) :
    (sessionEntriesPresent store = false
      ∧ domContentLoaded store = { globals := ⟨none, none⟩, threw := false, restored := false })
    ∨ (sessionEntriesPresent store = true ∧ ∃ tok txt,
        store.authToken = some tok ∧ store.currentUser = some txt ∧
        ((∃ u, txt.parse = some u
            ∧ domContentLoaded store = { globals := ⟨some tok, some u⟩, threw := false, restored := true })
          ∨ (txt.parse = none
            ∧ domContentLoaded store = { globals := ⟨some tok, none⟩, threw := true, restored := false }))) := by
  rcases store with ⟨a, c⟩
  cases a with
  | none =>
    cases c <;> exact Or.inl ⟨rfl, rfl⟩
  | some tok =>
    cases c with
    | none =>
      exact Or.inl ⟨by simp [sessionEntriesPresent, truthyOptStr, truthyOptJS], rfl⟩
    | some txt =>
      by_cases hcond : (tok != "" && txt.truthy) = true
      · refine Or.inr ⟨hcond, tok, txt, rfl, rfl, ?_⟩
        cases hp : txt.parse with
        | some u => exact Or.inl ⟨u, rfl, by simp [domContentLoaded, hcond, hp]⟩
        | none => exact Or.inr ⟨rfl, by simp [domContentLoaded, hcond, hp]⟩
      · have hcond2 : (tok != "" && txt.truthy) = false := by
          revert hcond; cases tok != "" && txt.truthy <;> simp
        exact Or.inl ⟨hcond2, by simp [domContentLoaded, hcond2]⟩

/-- When both entries are present, `storedIdentityParses` is decided by
`JSON.parse` on the stored identity text. -/
theorem storedIdentityParses_of_some (store : Storage) (txt : JSText)
    (hc : store.currentUser = some txt) :
    storedIdentityParses store = txt.parse.isSome := by
  simp [storedIdentityParses, hc]

/-! ### Claims -/

/-- C3: for every `submitQuestion` with non-empty trimmed text, the send
button is disabled at the moment the `/chat/ask` request is issued (together
with the input being cleared and the `user` message appended), and every
terminal path of the response — 2xx success, non-2xx rejection, transport
failure — re-enables it, so no execution path leaves it permanently
disabled. -/
theorem C3_send_button_lifecycle (ui : ChatUI) (h : jsTrim ui.input ≠ "") :
    sendMessagePhase1 ui =
      SendPhase1Result.issued
        { input := ""
          sendDisabled := true
          messages := ui.messages ++ [{ role := .user, content := jsTrim ui.input, sources := [] }] }
        (jsTrim ui.input)
    ∧ ∀ (resp : AskResponse) (ui2 : ChatUI), (sendMessageApply resp ui2).sendDisabled = false := by
  constructor
  · simp [sendMessagePhase1, h]
  · intro resp ui2
    cases resp <;> simp [sendMessageApply]

/-- Witness for C3 at the concrete input `" hi "`. -/
theorem C3_send_button_lifecycle_witness :
    sendMessagePhase1 { input := " hi ", sendDisabled := false, messages := [] } =
      SendPhase1Result.issued
        { input := "", sendDisabled := true
          messages := [{ role := .user, content := "hi", sources := [] }] }
        "hi" := by
  have h := (C3_send_button_lifecycle { input := " hi ", sendDisabled := false, messages := [] } (by decide)).1
  exact h.trans (by decide)

/-- C6: the upload body is exactly the PDF-typed files of the selection, in
selection order; a non-empty selection with no PDF left after filtering shows
the validation message and issues no request. -/
theorem C6_upload_pdf_filter (files : List FileRec) (h : files ≠ []) :
    ((files.filter fun f => f.type = "application/pdf") ≠ [] →
      handleFileUpload files = .request (files.filter fun f => f.type = "application/pdf"))
    ∧ ((files.filter fun f => f.type = "application/pdf") = [] →
      handleFileUpload files = .rejected "Please select PDF files only") := by
  constructor <;> intro hp <;> simp [handleFileUpload, h, hp]

/-- Witness for C6: the spec examples `[a.pdf, b.txt, c.pdf]` and `[b.txt]`. -/
theorem C6_upload_pdf_filter_witness :
    handleFileUpload
        [{ name := "a.pdf", type := "application/pdf" },
         { name := "b.txt", type := "text/plain" },
         { name := "c.pdf", type := "application/pdf" }]
      = .request
        [{ name := "a.pdf", type := "application/pdf" },
         { name := "c.pdf", type := "application/pdf" }]
    ∧ handleFileUpload [{ name := "b.txt", type := "text/plain" }]
      = .rejected "Please select PDF files only" := by
  constructor
  · have h := (C6_upload_pdf_filter
      [{ name := "a.pdf", type := "application/pdf" },
       { name := "b.txt", type := "text/plain" },
       { name := "c.pdf", type := "application/pdf" }] (by decide)).1 (by decide)
    exact h.trans (by decide)
  · exact (C6_upload_pdf_filter [{ name := "b.txt", type := "text/plain" }] (by decide)).2 (by decide)

/-- C7: a question that is empty after trimming makes `sendMessage` a strict
no-op: it returns before the request, the message list, the input and the
send-button state are all left exactly as they were. -/
theorem C7_blank_question_noop (ui : ChatUI) (h : jsTrim ui.input = "") :
    sendMessagePhase1 ui = .noSend ui := by
  simp [sendMessagePhase1, h]

/-- Witness for C7 at the whitespace-only input `"   "`. -/
theorem C7_blank_question_noop_witness :
    sendMessagePhase1 { input := "   ", sendDisabled := false, messages := [] }
      = .noSend { input := "   ", sendDisabled := false, messages := [] } :=
  C7_blank_question_noop { input := "   ", sendDisabled := false, messages := [] } (by decide)

/-- C10: registration validates client-side before any request: an empty
username, email, full name or password, or a password shorter than 6
characters, yields one of the two validation messages and no network call
(the `rejected` outcome is returned before the `fetch`). -/
theorem C10_register_validation (username email fullName password : String)
    (h : username = "" ∨ email = "" ∨ fullName = "" ∨ password = "" ∨ password.length < 6) :
    handleRegisterValidate username email fullName password = .rejected "Please fill in all fields"
    ∨ handleRegisterValidate username email fullName password
        = .rejected "Password must be at least 6 characters" := by
  by_cases hu : username = ""
  · exact Or.inl (by simp [handleRegisterValidate, hu])
  by_cases he : email = ""
  · exact Or.inl (by simp [handleRegisterValidate, hu, he])
  by_cases hf : fullName = ""
  · exact Or.inl (by simp [handleRegisterValidate, hu, he, hf])
  by_cases hp : password = ""
  · exact Or.inl (by simp [handleRegisterValidate, hu, he, hf, hp])
  have h6 : password.length < 6 := by
    rcases h with h | h | h | h | h
    exacts [absurd h hu, absurd h he, absurd h hf, absurd h hp, h]
  exact Or.inr (by simp [handleRegisterValidate, hu, he, hf, hp, h6])

/-- Witness for C10 at a 3-character password with all fields non-empty. -/
theorem C10_register_validation_witness :
    handleRegisterValidate "ab" "a@b.c" "Ada" "abc" = .rejected "Please fill in all fields"
    ∨ handleRegisterValidate "ab" "a@b.c" "Ada" "abc"
        = .rejected "Password must be at least 6 characters" :=
  C10_register_validation "ab" "a@b.c" "Ada" "abc" (by decide)

/-- Counterexample to C1: with the credential entry present and the identity
entry holding a malformed (non-JSON) string, the restore block throws the
`JSON.parse` exception instead of returning absent. -/
theorem C1_counterexample :
    (domContentLoaded { authToken := some "t", currentUser := some (JSText.notJson "oops") }).threw
      = true := rfl

/-- C1 amended: restore returns a session exactly when both storage entries
are present and truthy and the identity parses; when the entries are present
but the identity does not parse, restore throws (it does not return absent);
when the presence guard fails, restore returns absent without throwing and
leaves both globals null. -/
theorem C1_amended_restore_behaviour (store : Storage) :
    ((domContentLoaded store).restored
        = (sessionEntriesPresent store && storedIdentityParses store))
    ∧ ((domContentLoaded store).threw
        = (sessionEntriesPresent store && !storedIdentityParses store))
    ∧ (sessionEntriesPresent store = false →
        domContentLoaded store = { globals := ⟨none, none⟩, threw := false, restored := false }) := by
  rcases domContentLoaded_cases store with ⟨hp, heq⟩ | ⟨hp, tok, txt, _, hc, hrest⟩
  · rw [heq, hp]
    exact ⟨rfl, rfl, fun _ => rfl⟩
  · have hsip := storedIdentityParses_of_some store txt hc
    rcases hrest with ⟨u, hparse, heq⟩ | ⟨hparse, heq⟩
    · rw [heq, hp, hsip, hparse]
      exact ⟨rfl, rfl, fun hfalse => by simp at hfalse⟩
    · rw [heq, hp, hsip, hparse]
      exact ⟨rfl, rfl, fun hfalse => by simp at hfalse⟩

/-- Witness for C1 amended at empty storage. -/
theorem C1_amended_restore_behaviour_witness :
    domContentLoaded { authToken := none, currentUser := none }
      = { globals := ⟨none, none⟩, threw := false, restored := false } :=
  (C1_amended_restore_behaviour { authToken := none, currentUser := none }).2.2 rfl

/-- Concrete run for the C2 counterexample: the state right after `sendMessage`
issued `/chat/ask` for the question `"hi"` in a logged-in session. -/
def c2PendingState : AppState :=
  { authToken := some "t"
    currentUser := some (Json.str "u")
    storage := { authToken := some "t", currentUser := some (JSText.jsonOf (Json.str "u")) }
    chat := { input := "", sendDisabled := true
              messages := [{ role := .user, content := "hi", sources := [] }] } }

/-- Counterexample to C2: with a request in flight, perform `logout` (the
session no longer matches the one captured at issuance), then let the response
arrive.  The response handler still appends the assistant message — the state
changes, so the response is not silently discarded. -/
theorem C2_counterexample :
    (sendMessageApply (AskResponse.ok "ans" []) (logout c2PendingState).chat).messages
      ≠ (logout c2PendingState).chat.messages := by decide

/-- C2 amended: there is no stale-response guard.  The response handler of
`sendMessage` applies the result unconditionally: after any `logout` performed
while the request was in flight, the arriving response still appends its
assistant message (to the message list that `logout` emptied) and re-enables
the send button. -/
theorem C2_amended_response_applied_after_logout (s : AppState) (resp : AskResponse) :
    (sendMessageApply resp (logout s).chat).messages = [assistantMsgFor resp]
    ∧ (sendMessageApply resp (logout s).chat).sendDisabled = false := by
  cases resp <;> simp [sendMessageApply, logout, assistantMsgFor]

/-- Counterexample to C4: on an empty server history list, `loadChatHistory`
leaves the prior visible messages in place instead of replacing the list with
the (empty) reconstruction. -/
theorem C4_counterexample :
    loadChatHistory [] [{ role := .user, content := "old", sources := [] }] ≠ [] := by decide

/-- C4 amended: for every non-empty server history, a successful
`loadChatHistory` replaces the visible message list with the reconstruction
that, per history item in server order, appends a `user` message from the
recorded question followed by an `assistant` message carrying the recorded
response and sources; an empty history list leaves the visible message list
unchanged rather than replacing it. -/
theorem C4_amended_history_reconstruction (history : List HistItem) (msgs : List Msg)
    (h : history ≠ []) :
    loadChatHistory history msgs =
      history.flatMap fun item =>
        [{ role := .user, content := item.message, sources := [] },
         { role := .assistant, content := item.response, sources := item.sources }] := by
  simp [loadChatHistory, h]

/-- Witness for C4 amended at the spec example
`[(Q1, A1, []), (Q2, A2, [s1])]` over a non-empty prior list. -/
theorem C4_amended_history_reconstruction_witness :
    loadChatHistory
        [{ message := "Q1", response := "A1", sources := [] },
         { message := "Q2", response := "A2", sources := [{ filename := "s1.pdf", similarity := 1, content_preview := "p" }] }]
        [{ role := .system, content := "stale", sources := [] }]
      = [{ role := .user, content := "Q1", sources := [] },
         { role := .assistant, content := "A1", sources := [] },
         { role := .user, content := "Q2", sources := [] },
         { role := .assistant, content := "A2", sources := [{ filename := "s1.pdf", similarity := 1, content_preview := "p" }] }] := by
  have h := C4_amended_history_reconstruction
    [{ message := "Q1", response := "A1", sources := [] },
     { message := "Q2", response := "A2", sources := [{ filename := "s1.pdf", similarity := 1, content_preview := "p" }] }]
    [{ role := .system, content := "stale", sources := [] }] (by decide)
  exact h.trans (by decide)

/-- Counterexample to C5: on an application rejection (non-2xx status,
`ClearResp.badStatus`), `clearChatHistory` appends nothing — the message list
is exactly the prior one-element list, not that list plus a system error. -/
theorem C5_counterexample :
    clearChatHistory true ClearResp.badStatus [{ role := .user, content := "q", sources := [] }]
        = [{ role := .user, content := "q", sources := [] }]
    ∧ (clearChatHistory true ClearResp.badStatus
        [{ role := .user, content := "q", sources := [] }]).length ≠ 2 := by decide

/-- C5 amended: after confirmation, a 2xx response empties the list and
appends the system confirmation; a transport failure appends a system error
retaining the prior messages; an application rejection (non-2xx status)
appends nothing and retains the prior messages unchanged (the script has no
branch for this case). -/
theorem C5_amended_clear_history (msgs : List Msg) :
    clearChatHistory true ClearResp.ok msgs
        = [{ role := .system, content := "Chat history cleared successfully!", sources := [] }]
    ∧ clearChatHistory true ClearResp.badStatus msgs = msgs
    ∧ clearChatHistory true ClearResp.network msgs
        = msgs ++ [{ role := .system, content := "Error clearing chat history. Please try again.", sources := [] }] :=
  ⟨rfl, rfl, rfl⟩

/-- Counterexample to C8: a storage state satisfying the together-or-absent
invariant (both entries present) whose identity entry is a malformed string.
After the startup restore, the in-memory credential is set while the identity
is still null — the invariant is broken by the restore operation. -/
theorem C8_counterexample :
    storeInvariant { authToken := some "t", currentUser := some (JSText.notJson "oops") } = true
    ∧ memInvariant
        (domContentLoaded { authToken := some "t", currentUser := some (JSText.notJson "oops") }).globals.authToken
        (domContentLoaded { authToken := some "t", currentUser := some (JSText.notJson "oops") }).globals.currentUser
      = false :=
  ⟨rfl, rfl⟩

/-- C8 amended: successful login and logout each establish the
together-or-absent invariant in both memory and durable storage; the startup
restore establishes the in-memory invariant whenever it does not throw, but
when both entries are present and the identity fails to parse, it throws after
setting the credential, leaving the credential set without an identity. -/
theorem C8_amended_invariant_preservation :
    (∀ (tok : String) (u : Json) (s : AppState),
      memInvariant (loginSuccess tok u s).authToken (loginSuccess tok u s).currentUser = true
      ∧ storeInvariant (loginSuccess tok u s).storage = true)
    ∧ (∀ s : AppState,
      memInvariant (logout s).authToken (logout s).currentUser = true
      ∧ storeInvariant (logout s).storage = true)
    ∧ (∀ store : Storage, (domContentLoaded store).threw = false →
      memInvariant (domContentLoaded store).globals.authToken
        (domContentLoaded store).globals.currentUser = true) := by
  refine ⟨fun tok u s => ⟨rfl, rfl⟩, fun s => ⟨rfl, rfl⟩, fun store hthrew => ?_⟩
  rcases domContentLoaded_cases store with ⟨_, heq⟩ | ⟨_, tok, txt, _, _, hrest⟩
  · rw [heq]; rfl
  · rcases hrest with ⟨u, _, heq⟩ | ⟨_, heq⟩
    · rw [heq]; rfl
    · rw [heq] at hthrew; cases hthrew

/-- Witness for C8 amended: login into a fresh state, then logout, then a
restore from the resulting (empty) storage, all preserving the invariant. -/
theorem C8_amended_invariant_preservation_witness :
    (memInvariant (loginSuccess "tok1" (Json.str "Ada") (logout c2PendingState)).authToken
        (loginSuccess "tok1" (Json.str "Ada") (logout c2PendingState)).currentUser = true
      ∧ storeInvariant (loginSuccess "tok1" (Json.str "Ada") (logout c2PendingState)).storage = true)
    ∧ memInvariant (domContentLoaded { authToken := none, currentUser := none }).globals.authToken
        (domContentLoaded { authToken := none, currentUser := none }).globals.currentUser = true :=
  ⟨C8_amended_invariant_preservation.1 "tok1" (Json.str "Ada") (logout c2PendingState),
   C8_amended_invariant_preservation.2.2 { authToken := none, currentUser := none } rfl⟩

/-- Counterexample to C9: save a well-formed session whose credential is the
empty string.  On restore, the `savedToken && savedUser` guard treats the
empty credential as falsy, so restore yields no session at all — not a
session equal to the one saved. -/
theorem C9_counterexample :
    (domContentLoaded (saveSession "" (Json.obj [("full_name", Json.str "Ada")]))).restored = false
    ∧ (domContentLoaded (saveSession "" (Json.obj [("full_name", Json.str "Ada")]))).globals.authToken
      = none :=
  ⟨rfl, rfl⟩

/-- C9 amended: for every well-formed session whose credential string is
non-empty, `save` followed by `restore` yields exactly the saved session (and
the restore succeeds without throwing). -/
theorem C9_amended_save_restore_roundtrip (tok : String) (u : Json) (h : tok ≠ "") :
    domContentLoaded (saveSession tok u)
      = { globals := ⟨some tok, some u⟩, threw := false, restored := true } := by
  have hb : (tok != "") = true := bne_iff_ne.mpr h
  simp [saveSession, domContentLoaded, JSText.truthy, JSText.parse, hb]

/-- Witness for C9 amended at the login-scenario session
`(tok1, obj full_name Ada)`. -/
theorem C9_amended_save_restore_roundtrip_witness :
    domContentLoaded (saveSession "tok1" (Json.obj [("full_name", Json.str "Ada")]))
      = { globals := ⟨some "tok1", some (Json.obj [("full_name", Json.str "Ada")])⟩
          threw := false, restored := true } :=
  C9_amended_save_restore_roundtrip "tok1" (Json.obj [("full_name", Json.str "Ada")]) (by decide)
